import Mathlib

/-!
Shallow embedding of the memory-management core of `DiscordGemini.py`
(a Discord bot mediating replies through a list of Gemini backends).

Python strings are modelled as Lean `String`s, manipulated through their
underlying `List Char` (a Python `str` is a sequence of code points, which
is exactly `String.data`).  Each `py_*` helper below embeds one Python
string primitive used by the source.
-/

/-- Models Python `str.isspace` on one character for the characters
`str.strip` removes (space, tab, CR, LF, vertical tab, form feed). -/
def py_isspace (c : Char) : Bool :=
  c.isWhitespace || c = '\x0B' || c = '\x0C'

/-- Models Python `str.strip()`: removes leading and trailing whitespace. -/
def py_strip (s : String) : String :=
  String.mk (((s.data.dropWhile py_isspace).reverse.dropWhile py_isspace).reverse)

/-- Models Python `str.upper()` (ASCII case mapping, which covers every
string the source compares after upper-casing, namely `"NONE"`). -/
def py_upper (s : String) : String :=
  String.mk (s.data.map Char.toUpper)

/-- Models Python `str.startswith(pre)`. -/
def py_startswith (pre s : String) : Bool :=
  s.data.take pre.data.length == pre.data

/-- Models Python `s[n:]` (drop the first `n` code points). -/
def py_drop (s : String) (n : Nat) : String :=
  String.mk (s.data.drop n)

/-- Models Python `s[:n]` for `n ≥ 0` (take the first `n` code points). -/
def py_take (s : String) (n : Nat) : String :=
  String.mk (s.data.take n)

/-- Helper for `py_splitlines`: accumulates the current line (reversed). -/
def splitlinesAux : List Char → List Char → List String
  | [], acc => if acc.isEmpty then [] else [String.mk acc.reverse]
  | '\r' :: '\n' :: rest, acc => String.mk acc.reverse :: splitlinesAux rest []
  | '\r' :: rest, acc => String.mk acc.reverse :: splitlinesAux rest []
  | '\n' :: rest, acc => String.mk acc.reverse :: splitlinesAux rest []
  | c :: rest, acc => splitlinesAux rest (c :: acc)

/-- Models Python `str.splitlines()` for the universal line breaks
`"\n"`, `"\r\n"` and `"\r"` (the separators relevant to model replies);
like Python, a trailing line break does not produce a final empty line. -/
def py_splitlines (s : String) : List String :=
  splitlinesAux s.data []

/-- `SHORT_TERM_TURNS` from `DiscordGemini.py` line 17. -/
def SHORT_TERM_TURNS : Nat := 6

/-- `MODELS` from `DiscordGemini.py` lines 19-26: the ordered fallback list
of backend model identifiers. -/
def MODELS : List String :=
  ["gemma-3-27b-it",
   "gemma-3-12b-it",
   "gemma-3-4b-it",
   "gemma-3-2b-it",
   "gemma-3-1b-it",
   "gemini-2.5-flash-lite"]

/-- Outcome of one simulated backend attempt (`chats.create` +
`send_message` for one model identifier): a successful text result, a
`google.genai.errors.ClientError` carrying a status code, or any other
exception. -/
inductive BackendOutcome where
  | success (text : String)
  | clientError (status_code : Nat)
  | otherError (msg : String)
deriving DecidableEq, Repr

/-- An exception propagating out of `call_model`. -/
inductive CallFailure where
  | clientError (status_code : Nat)
  | otherError (msg : String)
deriving DecidableEq, Repr

/-- The sentinel returned by `call_model` when every model is exhausted
(`DiscordGemini.py` line 72). -/
def unavailable_msg : String := "I\x27m temporarily unavailable."

/-- The loop of `call_model` (`DiscordGemini.py` lines 62-72) over a list of
model identifiers.  `behave` simulates the backend: the outcome of the
attempt for each model identifier.  Returns the result (`Except.error` for
a propagated exception) paired with the number of backend attempts made.
A `ClientError` with status code 429 falls through to the next model; any
other exception is re-raised; success returns the text stripped. -/
def try_models (behave : String → BackendOutcome) : List String → Except CallFailure String × Nat
  | [] => (Except.ok unavailable_msg, 0)
  | model :: rest =>
    match behave model with
    | BackendOutcome.success t => (Except.ok (py_strip t), 1)
    | BackendOutcome.clientError code =>
      if code = 429 then
        ((try_models behave rest).1, (try_models behave rest).2 + 1)
      else
        (Except.error (CallFailure.clientError code), 1)
    | BackendOutcome.otherError m => (Except.error (CallFailure.otherError m), 1)

/-- `call_model(prompt)` (`DiscordGemini.py` lines 62-72), iterating
`MODELS` in order.  The prompt itself does not influence control flow, so
the simulated backend `behave` is keyed by model identifier. -/
def call_model (behave : String → BackendOutcome) : Except CallFailure String × Nat :=
  try_models behave MODELS

/-- The bullet-list comprehension shared verbatim by `update_memories`
(line 110) and `get_relevant_memories` (line 147):
`[line[2:].strip() for line in result.splitlines() if line.startswith("- ")]`. -/
def parse_bullets (result : String) : List String :=
  ((py_splitlines result).filter (fun line => py_startswith "- " line)).map
    (fun line => py_strip (py_drop line 2))

/-- The curator instruction prompt built by `update_memories`
(`DiscordGemini.py` lines 78-102).  Python renders
`chr(10).join('- ' + m for m in existing_memories) or 'NONE'`, i.e. the
literal `NONE` exactly when the join is the empty string, which happens
exactly when the list is empty. -/
def curator_prompt (user_message : String) (existing_memories : List String) : String :=
  "\nYou are a LONG-TERM MEMORY FILTER.\n\nExisting memories:\n"
  ++ (if existing_memories.isEmpty then "NONE"
      else String.intercalate "\n" (existing_memories.map (fun m => "- " ++ m)))
  ++ "\n\nNew user message:\n" ++ user_message
  ++ "\n\nSTRICT RULES:\n"
  ++ "- Save only durable personal info (identity, preferences, projects, constraints)\n"
  ++ "- Ignore conversation, questions, debugging, temporary info\n"
  ++ "- If nothing qualifies, respond EXACTLY: NONE\n"
  ++ "- Merge and deduplicate\n"
  ++ "- Keep each memory factual, neutral, under 80 characters\n"
  ++ "- Do not reference the conversation or user message\n"
  ++ "- Keep the amount of memories manageable (max 20)\n"
  ++ "- If the user has more than 15 memories, prioritize the most relevant ones\n"
  ++ "- Delete less relevant memories if necessary\n"
  ++ "- If the message has \x27Always must be included\x27 ensure that memory is kept and is not edited in any way.\n"
  ++ "- Output bullet list only:\nEXAMPLE OUTPUT:\n- Memory 1\n- Memory 2\n"

/-- `update_memories(user_message, existing_memories)` (`DiscordGemini.py`
lines 77-113).  The gateway (`call_model` on the curator prompt) is
abstracted as a response function `gateway`; a reply equal to `NONE` after
strip/upper returns the existing list unchanged, and any other reply is
replaced by its parsed bullet lines (the source's `print` is pure logging). -/
def update_memories (gateway : String → String) (user_message : String)
    (existing_memories : List String) : List String :=
  if py_upper (py_strip (gateway (curator_prompt user_message existing_memories))) = "NONE" then
    existing_memories
  else
    parse_bullets (gateway (curator_prompt user_message existing_memories))

/-- The relevance-filter prompt built by `get_relevant_memories`
(`DiscordGemini.py` lines 122-139). -/
def filter_prompt (user_message : String) (long_term : List String) : String :=
  "\nYou are a memory relevance filter.\nUser said: \"" ++ user_message ++ "\"\n"
  ++ "\nExisting memories:\n"
  ++ String.intercalate "\n" (long_term.map (fun m => "- " ++ m))
  ++ "\n\nRULES:\n"
  ++ "- Only keep memories that are directly relevant to the user\x27s message.\n"
  ++ "- Discard unrelated memories.\n"
  ++ "- Output a bullet list of relevant memories only, or NONE if none apply.\n"
  ++ "- The name is ALWAYS relevant and should almost ALWAYS be included.\n"
  ++ "- Do not modify the memories in any way.\n"
  ++ "- If the memory includes \x27Always must be included\x27 the memory must be included in the output.\n"
  ++ "- EXAMPLE OUTPUT:\n- Relevant memory 1\n- Relevant memory 2\n"

/-- `get_relevant_memories(user_message, long_term)` (`DiscordGemini.py`
lines 118-147), instrumented with the number of gateway (`call_model`)
invocations as the second component.  The source guards the empty fact
list twice (line 119 `if not long_term` and line 140 `if long_term == []`,
the latter unreachable); both are kept. -/
def get_relevant_memories (gateway : String → String) (user_message : String)
    (long_term : List String) : List String × Nat :=
  if long_term.isEmpty then ([], 0)
  else if long_term == [] then ([], 0)
  else if py_upper (py_strip (gateway (filter_prompt user_message long_term))) = "NONE" then ([], 1)
  else (parse_bullets (gateway (filter_prompt user_message long_term)), 1)

/-- One entry of the short-term buffer: the dict
`{"role": ..., "content": ...}` appended by `ask`. -/
structure DialogueTurn where
  role : String
  content : String
deriving DecidableEq, Repr

/-- `trim_short_term(short_term)` (`DiscordGemini.py` lines 179-180):
Python `short_term[-SHORT_TERM_TURNS * 2:]`, i.e. the last
`min(12, len)` entries, which is `drop (len - 12)` with truncated
subtraction. -/
def trim_short_term (short_term : List DialogueTurn) : List DialogueTurn :=
  short_term.drop (short_term.length - SHORT_TERM_TURNS * 2)

/-- The outbound truncation step of `ask` (`DiscordGemini.py` lines
215-217): `if len(reply) > 2000: reply = reply[:1997] + "..."`. -/
def truncate_reply (reply : String) : String :=
  if reply.length > 2000 then py_take reply 1997 ++ "..." else reply

/-- The persisted mapping (user identifier → stored value); the concrete
shape of the JSON value is irrelevant to the loading contract, so entries
are modelled as an association list over fact lists. -/
abbrev MemMap : Type := List (String × List String)

/-- `load_memories()` (`DiscordGemini.py` lines 41-51).  The file system
is modelled as `file : Option String` (`none` when `os.path.exists` is
false) and `json.loads` as `json_loads : String → Option MemMap` (`none`
models a parse exception, caught by the bare `except`).  The source strips
the file content before the emptiness test and before parsing. -/
def load_memories (file : Option String) (json_loads : String → Option MemMap) : MemMap :=
  match file with
  | none => []
  | some raw =>
    let content := py_strip raw
    if content = "" then []
    else
      match json_loads content with
      | some m => m
      | none => []

/-- The pinned preservation marker named by the curator prompt (line 97). -/
def pin_marker : String := "Always must be included"

/-- Whether a fact string contains the pinned preservation marker as a
substring (Python `'Always must be included' in fact`). -/
def pin_marker_in (f : String) : Bool :=
  (List.range (f.data.length + 1)).any
    (fun i => (f.data.drop i).take pin_marker.data.length == pin_marker.data)

/-- Spec-side restatement of the parsing policy, written from the spec's
words: the fact list contains exactly, in order, those lines of the reply
that begin with the bullet marker, each with the marker removed and
surrounding whitespace stripped. -/
def bullet_facts_spec (reply : String) : List String :=
  (py_splitlines reply).filterMap
    (fun line => if py_startswith "- " line then some (py_strip (py_drop line 2)) else none)

/-- A 2500-character reply used to witness the truncation claim. -/
def big_reply : String := String.mk (List.replicate 2500 'a')

/-- Simulated backend where only the first model is capacity-exhausted. -/
def behave_one_429 : String → BackendOutcome := fun m =>
  if m = "gemma-3-27b-it" then BackendOutcome.clientError 429
  else BackendOutcome.success " hello "

/-- Simulated backend where every model is capacity-exhausted. -/
def behave_all_429 : String → BackendOutcome := fun _ =>
  BackendOutcome.clientError 429

/-- Simulated backend: first model capacity-exhausted, second raises a
`ClientError` with status code 500. -/
def behave_hard_500 : String → BackendOutcome := fun m =>
  if m = "gemma-3-27b-it" then BackendOutcome.clientError 429
  else BackendOutcome.clientError 500

/-- Simulated backend whose first model raises a non-`ClientError`
exception. -/
def behave_crash : String → BackendOutcome := fun _ =>
  BackendOutcome.otherError "network fault"

lemma string_data_append (a b : String) : (a ++ b).data = a.data ++ b.data := by
  cases a; cases b; rfl

lemma string_length_data (s : String) : s.length = s.data.length := rfl

lemma trim_short_term_length_le (b : List DialogueTurn) :
    (trim_short_term b).length ≤ SHORT_TERM_TURNS * 2 := by
  simp only [trim_short_term, List.length_drop]
  omega

lemma trim_short_term_eq_self (b : List DialogueTurn)
    (h : b.length ≤ SHORT_TERM_TURNS * 2) :
    trim_short_term b = b := by
  unfold trim_short_term
  have h0 : b.length - SHORT_TERM_TURNS * 2 = 0 := by omega
  rw [h0, List.drop_zero]

/-- C3: `trim_short_term` returns a buffer of length at most
`2 × SHORT_TERM_TURNS` (= 12), and the retained entries are exactly the
most recently appended entries of the input in their original order — a
suffix of the input of length `min (2 × SHORT_TERM_TURNS) (length input)`. -/
theorem trim_short_term_bound_and_suffix (b : List DialogueTurn) :
    (trim_short_term b).length ≤ 2 * SHORT_TERM_TURNS ∧
    (trim_short_term b).length = min (2 * SHORT_TERM_TURNS) b.length ∧
    List.IsSuffix (trim_short_term b) b := by
  refine ⟨?_, ?_, List.drop_suffix _ _⟩ <;>
    simp only [trim_short_term, List.length_drop, SHORT_TERM_TURNS] <;> omega

/-- C10: `trim_short_term` is idempotent, and is the identity on every
buffer whose length is at most `2 × SHORT_TERM_TURNS`. -/
theorem trim_short_term_idempotent_and_identity (b : List DialogueTurn) :
    trim_short_term (trim_short_term b) = trim_short_term b ∧
    (b.length ≤ 2 * SHORT_TERM_TURNS → trim_short_term b = b) := by
  constructor
  · exact trim_short_term_eq_self _ (trim_short_term_length_le b)
  · intro h
    exact trim_short_term_eq_self b (by omega)

/-- Closed witness for C10 at a 13-entry buffer (idempotence) and a
3-entry buffer (identity below the cap). -/
theorem trim_short_term_idempotent_and_identity_witness :
    (trim_short_term (trim_short_term (List.replicate 13 (DialogueTurn.mk "user" "m")))
      = trim_short_term (List.replicate 13 (DialogueTurn.mk "user" "m"))) ∧
    ((List.replicate 3 (DialogueTurn.mk "user" "m")).length ≤ 2 * SHORT_TERM_TURNS ∧
      trim_short_term (List.replicate 3 (DialogueTurn.mk "user" "m"))
        = List.replicate 3 (DialogueTurn.mk "user" "m")) :=
  ⟨(trim_short_term_idempotent_and_identity _).1,
   by decide,
   (trim_short_term_idempotent_and_identity _).2 (by decide)⟩

/-- C6: with an empty fact list, `get_relevant_memories` returns the empty
list and makes zero gateway calls, for every gateway and message. -/
theorem relevance_filter_empty_short_circuit (gateway : String → String) (msg : String) :
    get_relevant_memories gateway msg [] = ([], 0) := rfl

/-- C4: when the backend reply to the curator prompt equals `NONE` after
stripping surrounding whitespace and upper-casing, `update_memories`
returns the existing fact list unchanged. -/
theorem curator_none_identity (gateway : String → String) (msg : String)
    (existing : List String)
    (h : py_upper (py_strip (gateway (curator_prompt msg existing))) = "NONE") :
    update_memories gateway msg existing = existing := by
  unfold update_memories
  rw [if_pos h]

/-- Closed witness for C4: the reply `" None "` leaves `["Likes tea"]`
unchanged. -/
theorem curator_none_identity_witness :
    py_upper (py_strip ((fun _ : String => " None ") (curator_prompt "hello" ["Likes tea"]))) = "NONE" ∧
    update_memories (fun _ : String => " None ") "hello" ["Likes tea"] = ["Likes tea"] :=
  ⟨by decide, curator_none_identity _ "hello" ["Likes tea"] (by decide)⟩

/-- C8: a backend reply longer than 2000 characters is truncated to
exactly 2000 characters — its first 1997 characters followed by `"..."` —
and a reply of at most 2000 characters passes through unchanged. -/
theorem reply_truncation_spec (reply : String) :
    (reply.length > 2000 →
      (truncate_reply reply).length = 2000 ∧
      (truncate_reply reply).data = reply.data.take 1997 ++ ['.', '.', '.']) ∧
    (reply.length ≤ 2000 → truncate_reply reply = reply) := by
  constructor
  · intro h
    have hd : reply.data.length > 2000 := h
    unfold truncate_reply
    rw [if_pos h]
    constructor
    · rw [string_length_data, string_data_append]
      simp only [py_take, List.length_append]
      rw [List.length_take]
      show min 1997 reply.data.length + 3 = 2000
      omega
    · rw [string_data_append]
      rfl
  · intro h
    unfold truncate_reply
    rw [if_neg (by omega)]

/-- Closed witness for C8 at a 2500-character reply. -/
theorem reply_truncation_spec_witness :
    big_reply.length > 2000 ∧
    ((truncate_reply big_reply).length = 2000 ∧
      (truncate_reply big_reply).data = big_reply.data.take 1997 ++ ['.', '.', '.']) := by
  have h : big_reply.length > 2000 := by
    have h2 : big_reply.length = 2500 := by
      show (List.replicate 2500 'a').length = 2500
      exact List.length_replicate 2500 'a'
    omega
  exact ⟨h, (reply_truncation_spec big_reply).1 h⟩

lemma try_models_cons (behave : String → BackendOutcome) (model : String) (rest : List String) :
    try_models behave (model :: rest)
      = (match behave model with
         | BackendOutcome.success t => (Except.ok (py_strip t), 1)
         | BackendOutcome.clientError code =>
           if code = 429 then
             ((try_models behave rest).1, (try_models behave rest).2 + 1)
           else
             (Except.error (CallFailure.clientError code), 1)
         | BackendOutcome.otherError m => (Except.error (CallFailure.otherError m), 1)) := rfl

lemma try_models_skip (behave : String → BackendOutcome) (pre rest : List String)
    (h : ∀ x ∈ pre, behave x = BackendOutcome.clientError 429) :
    try_models behave (pre ++ rest)
      = ((try_models behave rest).1, (try_models behave rest).2 + pre.length) := by
  induction pre with
  | nil => simp
  | cons a as ih =>
    have ha : behave a = BackendOutcome.clientError 429 := h a (by simp)
    have has : ∀ x ∈ as, behave x = BackendOutcome.clientError 429 := by
      intro x hx
      exact h x (by simp [hx])
    show try_models behave (a :: (as ++ rest)) = _
    rw [try_models_cons, ha]
    show ((try_models behave (as ++ rest)).1, (try_models behave (as ++ rest)).2 + 1) = _
    rw [ih has]
    show ((try_models behave rest).1, (try_models behave rest).2 + as.length + 1)
        = ((try_models behave rest).1, (try_models behave rest).2 + (as.length + 1))
    rw [Nat.add_assoc]

/-- C1: iterating `MODELS` in order, if the backends for a leading segment
`pre` all raise `ClientError` 429 and the next model succeeds with text
`t`, `call_model` returns `t` stripped of surrounding whitespace after
exactly `pre.length + 1` backend attempts; if every model in `MODELS`
raises `ClientError` 429, it makes exactly `MODELS.length` attempts and
returns the sentinel without raising. -/
theorem model_gateway_fallback (behave : String → BackendOutcome) :
    (∀ (pre post : List String) (model t : String),
      MODELS = pre ++ model :: post →
      (∀ x ∈ pre, behave x = BackendOutcome.clientError 429) →
      behave model = BackendOutcome.success t →
      call_model behave = (Except.ok (py_strip t), pre.length + 1)) ∧
    ((∀ m ∈ MODELS, behave m = BackendOutcome.clientError 429) →
      call_model behave = (Except.ok unavailable_msg, MODELS.length)) := by
  constructor
  · intro pre post model t hM hpre hm
    unfold call_model
    rw [hM, try_models_skip behave pre _ hpre, try_models_cons, hm]
    show ((Except.ok (py_strip t) : Except CallFailure String), 1 + pre.length)
        = ((Except.ok (py_strip t) : Except CallFailure String), pre.length + 1)
    rw [Nat.add_comm]
  · intro hall
    unfold call_model
    have h2 := try_models_skip behave MODELS [] hall
    rw [List.append_nil] at h2
    rw [h2]
    show ((Except.ok unavailable_msg : Except CallFailure String), 0 + MODELS.length)
        = ((Except.ok unavailable_msg : Except CallFailure String), MODELS.length)
    rw [Nat.zero_add]

/-- Closed witness for C1: with only the first model exhausted the second
model answers after 2 attempts; with every model exhausted the sentinel
comes back after 6 attempts. -/
theorem model_gateway_fallback_witness :
    behave_one_429 "gemma-3-27b-it" = BackendOutcome.clientError 429 ∧
    behave_one_429 "gemma-3-12b-it" = BackendOutcome.success " hello " ∧
    call_model behave_one_429 = (Except.ok (py_strip " hello "), 2) ∧
    call_model behave_all_429 = (Except.ok unavailable_msg, MODELS.length) := by
  refine ⟨by decide, by decide, ?_, ?_⟩
  · exact (model_gateway_fallback behave_one_429).1 ["gemma-3-27b-it"]
      ["gemma-3-4b-it", "gemma-3-2b-it", "gemma-3-1b-it", "gemini-2.5-flash-lite"]
      "gemma-3-12b-it" " hello " rfl (by decide) (by decide)
  · exact (model_gateway_fallback behave_all_429).2 (fun m _ => rfl)

/-- C2: after any leading segment of `ClientError` 429 responses, a model
whose backend raises a `ClientError` with a status code other than 429, or
any non-`ClientError` exception, makes the error propagate out of
`call_model` immediately: the attempt count is `pre.length + 1`, so no
later model in `MODELS` is tried. -/
theorem model_gateway_error_propagation (behave : String → BackendOutcome) :
    ∀ (pre post : List String) (model : String),
      MODELS = pre ++ model :: post →
      (∀ x ∈ pre, behave x = BackendOutcome.clientError 429) →
      (∀ code : Nat, behave model = BackendOutcome.clientError code → code ≠ 429 →
        call_model behave = (Except.error (CallFailure.clientError code), pre.length + 1)) ∧
      (∀ emsg : String, behave model = BackendOutcome.otherError emsg →
        call_model behave = (Except.error (CallFailure.otherError emsg), pre.length + 1)) := by
  intro pre post model hM hpre
  constructor
  · intro code hm hne
    unfold call_model
    rw [hM, try_models_skip behave pre _ hpre, try_models_cons, hm]
    show ((if code = 429 then
            ((try_models behave post).1, (try_models behave post).2 + 1)
          else (Except.error (CallFailure.clientError code), 1)).1,
          (if code = 429 then
            ((try_models behave post).1, (try_models behave post).2 + 1)
          else (Except.error (CallFailure.clientError code), 1)).2 + pre.length)
        = (Except.error (CallFailure.clientError code), pre.length + 1)
    rw [if_neg hne]
    show ((Except.error (CallFailure.clientError code) : Except CallFailure String), 1 + pre.length)
        = ((Except.error (CallFailure.clientError code) : Except CallFailure String), pre.length + 1)
    rw [Nat.add_comm]
  · intro emsg hm
    unfold call_model
    rw [hM, try_models_skip behave pre _ hpre, try_models_cons, hm]
    show ((Except.error (CallFailure.otherError emsg) : Except CallFailure String), 1 + pre.length)
        = ((Except.error (CallFailure.otherError emsg) : Except CallFailure String), pre.length + 1)
    rw [Nat.add_comm]

/-- Closed witness for C2: a 500 `ClientError` on the second model stops
the fallback after 2 attempts; a non-`ClientError` exception on the first
model stops it after 1 attempt. -/
theorem model_gateway_error_propagation_witness :
    behave_hard_500 "gemma-3-12b-it" = BackendOutcome.clientError 500 ∧
    call_model behave_hard_500 = (Except.error (CallFailure.clientError 500), 2) ∧
    call_model behave_crash = (Except.error (CallFailure.otherError "network fault"), 1) := by
  refine ⟨by decide, ?_, ?_⟩
  · exact ((model_gateway_error_propagation behave_hard_500) ["gemma-3-27b-it"]
      ["gemma-3-4b-it", "gemma-3-2b-it", "gemma-3-1b-it", "gemini-2.5-flash-lite"]
      "gemma-3-12b-it" rfl (by decide)).1 500 (by decide) (by decide)
  · exact ((model_gateway_error_propagation behave_crash) []
      ["gemma-3-12b-it", "gemma-3-4b-it", "gemma-3-2b-it", "gemma-3-1b-it", "gemini-2.5-flash-lite"]
      "gemma-3-27b-it" rfl (by simp)).2 "network fault" rfl

lemma parse_bullets_eq_bullet_facts_spec (reply : String) :
    parse_bullets reply = bullet_facts_spec reply := by
  unfold parse_bullets bullet_facts_spec
  generalize py_splitlines reply = l
  induction l with
  | nil => rfl
  | cons a t ih =>
    cases h : py_startswith "- " a with
    | true => simp [List.filter_cons, List.filterMap_cons, h, ih]
    | false => simp [List.filter_cons, List.filterMap_cons, h, ih]

/-- C5: when the backend reply is not the `NONE` signal, the curator and
the relevance filter both produce exactly, in order, the reply lines that
begin with `"- "`, each with the marker removed and surrounding whitespace
stripped; other lines are ignored, and a reply with no bulleted lines
yields the empty list. -/
theorem bullet_parsing_policy :
    (∀ (gateway : String → String) (msg : String) (existing : List String),
      py_upper (py_strip (gateway (curator_prompt msg existing))) ≠ "NONE" →
      update_memories gateway msg existing
        = bullet_facts_spec (gateway (curator_prompt msg existing))) ∧
    (∀ (gateway : String → String) (msg : String) (a : String) (t : List String),
      py_upper (py_strip (gateway (filter_prompt msg (a :: t)))) ≠ "NONE" →
      (get_relevant_memories gateway msg (a :: t)).1
        = bullet_facts_spec (gateway (filter_prompt msg (a :: t)))) ∧
    update_memories (fun _ : String => "- Likes tea\n- Uses Linux") "m" []
      = ["Likes tea", "Uses Linux"] ∧
    update_memories (fun _ : String => "- Likes tea\nchatter line\n- Uses Linux") "m" []
      = ["Likes tea", "Uses Linux"] ∧
    update_memories (fun _ : String => "no bullets here") "m" [] = [] := by
  refine ⟨?_, ?_, by decide, by decide, by decide⟩
  · intro gateway msg existing h
    unfold update_memories
    rw [if_neg h]
    exact parse_bullets_eq_bullet_facts_spec _
  · intro gateway msg a t h
    show (if py_upper (py_strip (gateway (filter_prompt msg (a :: t)))) = "NONE"
        then (([] : List String), 1)
        else (parse_bullets (gateway (filter_prompt msg (a :: t))), 1)).1 = _
    rw [if_neg h]
    exact parse_bullets_eq_bullet_facts_spec _

/-- Closed witness for C5 at the reply `"- A\nskip\n- B"`. -/
theorem bullet_parsing_policy_witness :
    py_upper (py_strip ((fun _ : String => "- A\nskip\n- B") (curator_prompt "m" []))) ≠ "NONE" ∧
    update_memories (fun _ : String => "- A\nskip\n- B") "m" []
      = bullet_facts_spec ((fun _ : String => "- A\nskip\n- B") (curator_prompt "m" [])) :=
  ⟨by decide, bullet_parsing_policy.1 (fun _ : String => "- A\nskip\n- B") "m" [] (by decide)⟩

/-- C7 as stated is false on the code: `update_memories` replaces the fact
list with whatever bullet lines the backend returns, so a reply that omits
a pinned fact drops it. -/
theorem curation_cap_and_pinning_counterexample :
    ¬ (∀ (gateway : String → String) (msg : String) (existing : List String),
        (update_memories gateway msg existing).length ≤ 20 ∧
        (∀ f ∈ existing, pin_marker_in f = true →
          f ∈ update_memories gateway msg existing)) := by
  intro h
  have h2 := (h (fun _ : String => "- unrelated fact") "m"
      ["Always must be included: the user is Bob"]).2
      "Always must be included: the user is Bob" (by decide) (by decide)
  exact absurd h2 (by decide)

/-- C7 amended: the cap and the pinning hold exactly when the backend
complies — if the existing list has at most 20 facts and the reply either
signals `NONE` or parses to at most 20 bullet facts that include every
pinned existing fact, then the curated list has length at most 20 and
every pinned fact survives unmodified.  The code itself enforces neither
bound: it trusts the backend. -/
theorem curation_cap_and_pinning_amended (gateway : String → String) (msg : String)
    (existing : List String)
    (hlen : existing.length ≤ 20)
    (hcomply : py_upper (py_strip (gateway (curator_prompt msg existing))) = "NONE"
      ∨ ((bullet_facts_spec (gateway (curator_prompt msg existing))).length ≤ 20
         ∧ ∀ f ∈ existing, pin_marker_in f = true →
             f ∈ bullet_facts_spec (gateway (curator_prompt msg existing)))) :
    (update_memories gateway msg existing).length ≤ 20 ∧
    (∀ f ∈ existing, pin_marker_in f = true →
      f ∈ update_memories gateway msg existing) := by
  by_cases hn : py_upper (py_strip (gateway (curator_prompt msg existing))) = "NONE"
  · unfold update_memories
    rw [if_pos hn]
    exact ⟨hlen, fun f hf _ => hf⟩
  · unfold update_memories
    rw [if_neg hn]
    rcases hcomply with hc | ⟨hl, hp⟩
    · exact absurd hc hn
    · rw [parse_bullets_eq_bullet_facts_spec]
      exact ⟨hl, hp⟩

/-- Closed witness for C7 amended: a compliant `NONE` reply over a pinned
single-fact list keeps the fact and the bound. -/
theorem curation_cap_and_pinning_amended_witness :
    (["Always must be included: the user is Bob"] : List String).length ≤ 20 ∧
    ((update_memories (fun _ : String => "NONE") "m"
        ["Always must be included: the user is Bob"]).length ≤ 20 ∧
     (∀ f ∈ (["Always must be included: the user is Bob"] : List String),
        pin_marker_in f = true →
        f ∈ update_memories (fun _ : String => "NONE") "m"
          ["Always must be included: the user is Bob"])) :=
  ⟨by decide,
   curation_cap_and_pinning_amended (fun _ : String => "NONE") "m"
     ["Always must be included: the user is Bob"] (by decide) (Or.inl (by decide))⟩

/-- C9: `load_memories` is a total function of the file state; a missing
file, a whitespace-only file, and an unparsable file all yield the empty
mapping, and a parsable file yields exactly the parsed mapping. -/
theorem load_memories_cases (file : Option String) (json_loads : String → Option MemMap) :
    (file = none → load_memories file json_loads = []) ∧
    (∀ raw, file = some raw → py_strip raw = "" → load_memories file json_loads = []) ∧
    (∀ raw, file = some raw → json_loads (py_strip raw) = none →
      load_memories file json_loads = []) ∧
    (∀ raw m, file = some raw → py_strip raw ≠ "" → json_loads (py_strip raw) = some m →
      load_memories file json_loads = m) := by
  refine ⟨?_, ?_, ?_, ?_⟩
  · intro h
    rw [h]
    rfl
  · intro raw h he
    rw [h]
    simp [load_memories, he]
  · intro raw h hp
    rw [h]
    by_cases he : py_strip raw = ""
    · simp [load_memories, he]
    · simp [load_memories, he, hp]
  · intro raw m h hne hp
    rw [h]
    simp [load_memories, hne, hp]

/-- Closed witness for C9 across the four cases. -/
theorem load_memories_cases_witness :
    load_memories none (fun _ : String => (none : Option MemMap)) = [] ∧
    load_memories (some "   ") (fun _ : String => (none : Option MemMap)) = [] ∧
    load_memories (some "not json") (fun _ : String => (none : Option MemMap)) = [] ∧
    (py_strip "data" ≠ "" ∧
      load_memories (some "data") (fun _ : String => (some [("u", ["f"])] : Option MemMap))
        = [("u", ["f"])]) :=
  ⟨(load_memories_cases none _).1 rfl,
   (load_memories_cases (some "   ") _).2.1 "   " rfl (by decide),
   (load_memories_cases (some "not json") _).2.2.1 "not json" rfl rfl,
   by decide,
   (load_memories_cases (some "data") _).2.2.2 "data" [("u", ["f"])] rfl (by decide) rfl⟩
